import Mathlib

/-!
# Napatech NTAPI stub (docker/legacy-files/nt.h, docker/legacy-files/ntapi_stub.c)

A shallow embedding of the stub translation unit and of the header it stands in for.

Conventions of the embedding.

* A C pointer value that is only passed around (`void*` handles) is a `VoidPtr`, an address,
  with `NULL` the address 0.
* A C pointer argument that a function may write through is embedded by the object it points
  to: `Option T`, `none` standing for the null pointer.  Such a function returns the status
  together with the object after the call.
* `int` values are `Int`, unsigned fields are `Nat`, a byte is `Fin 256`.
* A union is embedded by its storage, held in the shape of its largest member; the other
  members are views of the first bytes of that storage.
-/

set_option linter.unusedVariables false

namespace Napatech

/-! ## nt.h: basic types and constants -/

/-- A `void*` value: an address. All handle types of nt.h are `void*`. -/
abbrev VoidPtr := Nat

/-- The null pointer. -/
def NULL : VoidPtr := 0

/-- One byte of storage. -/
abbrev Byte := Fin 256

def NT_SUCCESS : Int := 0
def NT_ERROR_INVALID_PARAMETER : Int := -1
def NT_STATUS_TIMEOUT : Int := -2
def NT_STATUS_TRYAGAIN : Int := -3

def NT_TIMESTAMP_TYPE_NATIVE_UNIX : Int := 1
def NT_TIMESTAMP_TYPE_PCAP : Int := 2
def NT_TIMESTAMP_TYPE_PCAP_NANOTIME : Int := 3
def NT_TIMESTAMP_TYPE_NATIVE_NDIS : Int := 4

/-! ## Byte-level helpers for members that share union storage -/

/-- Byte order of the platform the translation unit is compiled for. -/
inductive ByteOrder where
  | little
  | big
deriving DecidableEq

/-- Byte number `k` (in address order) of the object representation of the `uint32_t`
value `v`. -/
def uint32Byte (bo : ByteOrder) (v : Nat) (k : Fin 4) : Byte :=
  match bo with
  | .little => ⟨(v / 256 ^ k.val) % 256, Nat.mod_lt _ (by decide)⟩
  | .big => ⟨(v / 256 ^ (3 - k.val)) % 256, Nat.mod_lt _ (by decide)⟩

/-- The `uint32_t` value whose object representation is the four bytes `b 0 .. b 3`
(in address order). -/
def uint32OfBytes (bo : ByteOrder) (b : Fin 4 → Byte) : Nat :=
  match bo with
  | .little => (b 0).val + 256 * (b 1).val + 65536 * (b 2).val + 16777216 * (b 3).val
  | .big => (b 3).val + 256 * (b 2).val + 65536 * (b 1).val + 16777216 * (b 0).val

/-- The effect of `memset(row, c, n)` on a 256-byte row: the first `n` bytes become `c`. -/
def memset (row : Fin 256 → Byte) (c : Byte) (n : Nat) : Fin 256 → Byte :=
  fun j => if j.val < n then c else row j

/-! ## NtNetRxCmd_t -/

/-- The member `streamDrop` of the union of NtNetRxCmd_t. -/
structure NtNetRxCmd_streamDrop where
  pktsDropped : Nat
deriving DecidableEq

/-- The union `u` of NtNetRxCmd_t; it has the single member `streamDrop`. -/
structure NtNetRxCmd_u where
  streamDrop : NtNetRxCmd_streamDrop
deriving DecidableEq

/-- The record `NtNetRxCmd_t`. -/
structure NtNetRxCmd_t where
  cmd : Int
  u : NtNetRxCmd_u
deriving DecidableEq

/-! ## NtInfo_t and NtNtplInfo_t -/

/-- The member `errorData`: `char errBuffer[3][256]`. -/
structure ErrorData where
  errBuffer : Fin 3 → Fin 256 → Byte

/-- Storage of the union `u` of NtInfo_t. Its members are `stream` (a `uint32_t count`,
four bytes at offset 0) and `errorData` (768 bytes at offset 0); the storage is held as
`errorData`, and `stream.data.count` is the view of `errBuffer[0][0..3]` below. -/
structure NtInfo_u where
  errorData : ErrorData

/-- The record `NtInfo_t`. -/
structure NtInfo_t where
  cmd : Int
  u : NtInfo_u

/-- Reading `u.stream.data.count`: the `uint32_t` held in the first four bytes of the union. -/
def NtInfo_u.stream_data_count (bo : ByteOrder) (u : NtInfo_u) : Nat :=
  uint32OfBytes bo (fun k => u.errorData.errBuffer 0 ⟨k.val, by omega⟩)

/-- Writing `u.stream.data.count = v`: the first four bytes of the union receive the object
representation of `v`, the other bytes are kept. -/
def NtInfo_u.set_stream_data_count (bo : ByteOrder) (u : NtInfo_u) (v : Nat) : NtInfo_u :=
  { errorData :=
      { errBuffer := fun i j =>
          if h : i = 0 ∧ j.val < 4 then uint32Byte bo v ⟨j.val, h.2⟩
          else u.errorData.errBuffer i j } }

/-- Replacing row `i` of `u.errorData.errBuffer`. -/
def NtInfo_u.set_errBuffer (u : NtInfo_u) (i : Fin 3) (row : Fin 256 → Byte) : NtInfo_u :=
  { errorData := { errBuffer := Function.update u.errorData.errBuffer i row } }

/-- The union `u` of NtNtplInfo_t; it has the single member `errorData`. -/
structure NtNtplInfo_u where
  errorData : ErrorData

/-- The record `NtNtplInfo_t`. -/
structure NtNtplInfo_t where
  ntplId : Int
  u : NtNtplInfo_u

/-- Replacing row `i` of `u.errorData.errBuffer`. -/
def NtNtplInfo_u.set_errBuffer (u : NtNtplInfo_u) (i : Fin 3) (row : Fin 256 → Byte) :
    NtNtplInfo_u :=
  { errorData := { errBuffer := Function.update u.errorData.errBuffer i row } }

/-! ## ntapi_stub.c: info stream functions -/

def NT_InfoOpen (info_stream : Option VoidPtr) (name : Option String) : Int × Option VoidPtr :=
  (0, info_stream)

def NT_InfoClose (info_stream : VoidPtr) : Int := 0

def NT_InfoRead (bo : ByteOrder) (info_stream : VoidPtr) (info : Option NtInfo_t) :
    Int × Option NtInfo_t :=
  match info with
  | some i =>
    let i := { i with cmd := 1 }
    let i := { i with u := i.u.set_stream_data_count bo 1 }
    let i := { i with u := i.u.set_errBuffer 0 (memset (i.u.errorData.errBuffer 0) 0 256) }
    let i := { i with u := i.u.set_errBuffer 1 (memset (i.u.errorData.errBuffer 1) 0 256) }
    let i := { i with u := i.u.set_errBuffer 2 (memset (i.u.errorData.errBuffer 2) 0 256) }
    (0, some i)
  | none => (0, none)

/-! ## NtStatistics_t -/

/-- The member `onboardBuffering` of a host-buffer entry. -/
structure OnboardBuffering where
  used : Nat
  size : Nat
deriving DecidableEq

/-- A frame count and a byte count (the members `rx` and `drop` of `stat`). -/
structure FrameByteCount where
  frames : Nat
  bytes : Nat
deriving DecidableEq

/-- The member `stat` of a host-buffer entry, declared in nt.h. -/
structure HostBufferStat where
  rx : FrameByteCount
  drop : FrameByteCount
deriving DecidableEq

/-- One entry of `hb[16]`, in the shape nt.h declares. The replica of this type in
ntapi_stub.c declares the members `onboardBuffering` .. `numaNode` only, in the same order
and with the same types; it has no member `stat`. -/
structure HostBuffer where
  onboardBuffering : OnboardBuffering
  enQueuedAdapter : Nat
  deQueued : Nat
  enQueued : Nat
  numaNode : Nat
  stat : HostBufferStat
deriving DecidableEq

/-- The member `data` of `usageData_v0`. -/
structure UsageData where
  numHostBufferUsed : Nat
  hb : Fin 16 → HostBuffer

/-- The member `usageData_v0` of the union of NtStatistics_t. -/
structure UsageData_v0 where
  streamid : Nat
  data : UsageData

/-- Storage of the union `u` of NtStatistics_t. nt.h declares the members `usageData_v0`
and `query_v2` (a single `uint8_t clear` at offset 0); the storage is held as
`usageData_v0`, and `query_v2.clear` is the view of the byte of `streamid` below.
ntapi_stub.c declares `usageData_v0` only. -/
structure NtStatistics_u where
  usageData_v0 : UsageData_v0

/-- Reading `u.query_v2.clear`: the `uint8_t` at offset 0 of the union, which is the byte
of `u.usageData_v0.streamid`. -/
def NtStatistics_u.query_v2_clear (u : NtStatistics_u) : Nat :=
  u.usageData_v0.streamid

/-- The record `NtStatistics_t`. -/
structure NtStatistics_t where
  cmd : Int
  u : NtStatistics_u

/-- The assignment `stat->u.usageData_v0.data.hb[i] = f(stat->u.usageData_v0.data.hb[i])`:
entry `i` is rewritten, every other entry is kept. -/
def NtStatistics_t.modify_hb (s : NtStatistics_t) (i : Fin 16) (f : HostBuffer → HostBuffer) :
    NtStatistics_t :=
  { s with u.usageData_v0.data.hb :=
      Function.update s.u.usageData_v0.data.hb i (f (s.u.usageData_v0.data.hb i)) }

/-! ## ntapi_stub.c: basic functions -/

def NT_Init (x : Int) : Int := 0

def NT_Done : Int := 0

/-! ## ntapi_stub.c: network stream functions -/

def NT_NetRxOpen (stream : Option VoidPtr) (name : Option String)
    (interface streamId hba : Int) : Int × Option VoidPtr :=
  (0, stream)

def NT_NetRxClose (stream : VoidPtr) : Int := 0

def NT_NetRxGet (stream : VoidPtr) (buffer : Option VoidPtr) (timeout : Int) :
    Int × Option VoidPtr :=
  (-2, buffer)

def NT_NetRxRelease (stream : VoidPtr) (buf : VoidPtr) : Int := 0

def NT_NetRxRead (stream : VoidPtr) (cmd : Option NtNetRxCmd_t) : Int × Option NtNetRxCmd_t :=
  match cmd with
  | some c =>
    let c := { c with u.streamDrop.pktsDropped := 0 }
    (0, some c)
  | none => (0, none)

/-! ## ntapi_stub.c: statistics functions -/

def NT_StatOpen (stat_stream : Option VoidPtr) (name : Option String) : Int × Option VoidPtr :=
  (0, stat_stream)

def NT_StatClose (stat_stream : VoidPtr) : Int := 0

/-- The function is compiled against the replica of NtStatistics_t in ntapi_stub.c. Every
member it assigns is one of the leading members that the replica and nt.h declare with the
same name, type and order, so each assignment is embedded as the assignment to the member
of that name in the record of nt.h. -/
def NT_StatRead (stat_stream : VoidPtr) (stat : Option NtStatistics_t) :
    Int × Option NtStatistics_t :=
  match stat with
  | some s =>
    let s := { s with cmd := 1 }
    let s := { s with u.usageData_v0.streamid := 0 }
    let s := { s with u.usageData_v0.data.numHostBufferUsed := 1 }
    let s := s.modify_hb 0 (fun b => { b with onboardBuffering.used := 0 })
    let s := s.modify_hb 0 (fun b => { b with onboardBuffering.size := 1024 })
    let s := s.modify_hb 0 (fun b => { b with enQueuedAdapter := 0 })
    let s := s.modify_hb 0 (fun b => { b with deQueued := 0 })
    let s := s.modify_hb 0 (fun b => { b with enQueued := 0 })
    let s := s.modify_hb 0 (fun b => { b with numaNode := 0 })
    (0, some s)
  | none => (0, none)

/-! ## ntapi_stub.c: configuration functions -/

def NT_ConfigOpen (config_stream : Option VoidPtr) (name : Option String) :
    Int × Option VoidPtr :=
  (0, config_stream)

def NT_ConfigClose (config_stream : VoidPtr) : Int := 0

def NT_NTPL (config_stream : VoidPtr) (ntpl_cmd : Option String) (info : Option NtNtplInfo_t)
    (validate_mode : Int) : Int × Option NtNtplInfo_t :=
  match info with
  | some i =>
    let i := { i with ntplId := 1 }
    let i := { i with u := i.u.set_errBuffer 0 (memset (i.u.errorData.errBuffer 0) 0 256) }
    let i := { i with u := i.u.set_errBuffer 1 (memset (i.u.errorData.errBuffer 1) 0 256) }
    let i := { i with u := i.u.set_errBuffer 2 (memset (i.u.errorData.errBuffer 2) 0 256) }
    (0, some i)
  | none => (0, none)

/-! ## ntapi_stub.c: packet access functions -/

def NT_NET_GET_PKT_TIMESTAMP (buffer : VoidPtr) : Int := 0

def NT_NET_GET_PKT_TIMESTAMP_TYPE (buffer : VoidPtr) : Int := 1

def NT_NET_GET_PKT_L2_PTR (buffer : VoidPtr) : VoidPtr := NULL

def NT_NET_GET_PKT_WIRE_LENGTH (buffer : VoidPtr) : Int := 0

/-! ## Concrete records used to evaluate the functions -/

/-- An info record whose command is `cmd` and whose union bytes all equal `b`. -/
def NtInfo_t.filled (cmd : Int) (b : Byte) : NtInfo_t :=
  { cmd := cmd, u := { errorData := { errBuffer := fun _ _ => b } } }

/-- A filter result record whose identifier is `id` and whose buffer bytes all equal `b`. -/
def NtNtplInfo_t.filled (id : Int) (b : Byte) : NtNtplInfo_t :=
  { ntplId := id, u := { errorData := { errBuffer := fun _ _ => b } } }

/-- A host-buffer entry with every member equal to `n`. -/
def HostBuffer.filled (n : Nat) : HostBuffer :=
  { onboardBuffering := { used := n, size := n }
    enQueuedAdapter := n
    deQueued := n
    enQueued := n
    numaNode := n
    stat := { rx := { frames := n, bytes := n }, drop := { frames := n, bytes := n } } }

/-- A statistics record whose command is `cmd`, whose first union byte is `b` and whose
other members all equal `n`. -/
def NtStatistics_t.filled (cmd : Int) (b n : Nat) : NtStatistics_t :=
  { cmd := cmd
    u := { usageData_v0 :=
      { streamid := b
        data := { numHostBufferUsed := n, hb := fun _ => HostBuffer.filled n } } } }

/-- The statuses returned by `n` consecutive calls of `call` on the same argument. -/
def repeatedCalls {α : Type} (call : α → Int) (a : α) : Nat → List Int
  | 0 => []
  | n + 1 => call a :: repeatedCalls call a n

/-- The record NT_StatRead leaves behind: command 1, stream id 0, one used host buffer,
entry 0 with its six stub-declared members at their fixed values and its `stat` member as
before, entries 1..15 as before. -/
def statReadResult (s : NtStatistics_t) : NtStatistics_t :=
  { cmd := 1
    u := { usageData_v0 :=
      { streamid := 0
        data :=
          { numHostBufferUsed := 1
            hb := Function.update s.u.usageData_v0.data.hb 0
              { onboardBuffering := { used := 0, size := 1024 }
                enQueuedAdapter := 0
                deQueued := 0
                enQueued := 0
                numaNode := 0
                stat := (s.u.usageData_v0.data.hb 0).stat } } } } }

/-! ## Characterisation of the record-filling functions -/

theorem memset_all (row : Fin 256 → Byte) (c : Byte) : memset row c 256 = fun _ => c := by
  funext j
  simp [memset, j.isLt]

/-- On a non-null record NT_InfoRead returns 0 and leaves the command 1 and every byte of
the union 0, whatever the record held and whatever the byte order. -/
theorem NT_InfoRead_some (bo : ByteOrder) (info_stream : VoidPtr) (info : NtInfo_t) :
    NT_InfoRead bo info_stream (some info) = (0, some (NtInfo_t.filled 1 0)) := by
  simp only [NT_InfoRead, NtInfo_t.filled, NtInfo_u.set_errBuffer, memset_all]
  refine congrArg (fun e => ((0 : Int), some ({ cmd := 1, u := { errorData := { errBuffer := e } } } : NtInfo_t))) ?_
  funext i j
  fin_cases i <;> simp [Function.update]

theorem NT_InfoRead_none (bo : ByteOrder) (info_stream : VoidPtr) :
    NT_InfoRead bo info_stream none = (0, none) := rfl

/-- The count member reads 0 from a union whose bytes are all 0. -/
theorem stream_data_count_filled_zero (bo : ByteOrder) (cmd : Int) :
    (NtInfo_t.filled cmd 0).u.stream_data_count bo = 0 := by
  cases bo <;> simp [NtInfo_t.filled, NtInfo_u.stream_data_count, uint32OfBytes]

/-- On a non-null record NT_NTPL returns 0 and leaves the identifier 1 and every buffer
byte 0. -/
theorem NT_NTPL_some (config_stream : VoidPtr) (ntpl_cmd : Option String) (info : NtNtplInfo_t)
    (validate_mode : Int) :
    NT_NTPL config_stream ntpl_cmd (some info) validate_mode
      = (0, some (NtNtplInfo_t.filled 1 0)) := by
  simp only [NT_NTPL, NtNtplInfo_t.filled, NtNtplInfo_u.set_errBuffer, memset_all]
  refine congrArg (fun e => ((0 : Int), some ({ ntplId := 1, u := { errorData := { errBuffer := e } } } : NtNtplInfo_t))) ?_
  funext i j
  fin_cases i <;> simp [Function.update]

theorem NT_StatRead_some (stat_stream : VoidPtr) (s : NtStatistics_t) :
    NT_StatRead stat_stream (some s) = (0, some (statReadResult s)) := by
  simp [NT_StatRead, statReadResult, NtStatistics_t.modify_hb]

/-! ## Info read -/

/-- C1 (evaluation at a failing input). NT_InfoRead is called on a record whose command is 0
and whose union bytes are all 255. The call returns 0 and every byte of
u.errorData.errBuffer is 0 afterwards, but u.stream.data.count, read from the same union
storage, is 0 and not 1, on a little-endian and on a big-endian platform alike: the
memset calls that follow the assignment of 1 to count clear the bytes that hold it. -/
theorem NT_InfoRead_count_cleared_by_memset :
    (∀ bo : ByteOrder, ∃ info : NtInfo_t,
      NT_InfoRead bo 1 (some (NtInfo_t.filled 0 255)) = (0, some info) ∧
      info.u.stream_data_count bo = 0 ∧
      info.u.stream_data_count bo ≠ 1 ∧
      ∀ (i : Fin 3) (j : Fin 256), info.u.errorData.errBuffer i j = 0) := by
  intro bo
  refine ⟨NtInfo_t.filled 1 0, NT_InfoRead_some bo 1 _, ?_, ?_, ?_⟩
  · exact stream_data_count_filled_zero bo 1
  · rw [stream_data_count_filled_zero bo 1]; decide
  · intro i j; rfl

/-- For every record, stream handle and byte order, after NT_InfoRead the count member
reads 0 and the command is 1. -/
theorem NT_InfoRead_count_zero (bo : ByteOrder) (info_stream : VoidPtr) (info : NtInfo_t) :
    ∃ info1 : NtInfo_t, NT_InfoRead bo info_stream (some info) = (0, some info1) ∧
      info1.cmd = 1 ∧ info1.u.stream_data_count bo = 0 ∧
      ∀ (i : Fin 3) (j : Fin 256), info1.u.errorData.errBuffer i j = 0 :=
  ⟨NtInfo_t.filled 1 0, NT_InfoRead_some bo info_stream info, rfl,
    stream_data_count_filled_zero bo 1, fun _ _ => rfl⟩

/-- Writing the count member and reading it back gives the value written, reduced to 32
bits: the view of count over the union bytes is a faithful member access. -/
theorem stream_data_count_set_get (bo : ByteOrder) (u : NtInfo_u) (v : Nat) :
    (u.set_stream_data_count bo v).stream_data_count bo = v % 2 ^ 32 := by
  cases bo <;>
    simp [NtInfo_u.set_stream_data_count, NtInfo_u.stream_data_count, uint32OfBytes,
      uint32Byte, Fin.coe_ofNat_eq_mod] <;> omega

/-! ## Filter submission -/

/-- C5. For every config handle, every filter text (absent, empty or not), every
validation-mode flag and every initial NtNtplInfo_t record, NT_NTPL returns 0 and the record
afterwards has ntplId = 1 and all 3 x 256 bytes of u.errorData.errBuffer equal to 0. -/
theorem NT_NTPL_reports_id_one_and_zeroed_buffers (config_stream : VoidPtr)
    (ntpl_cmd : Option String) (validate_mode : Int) (info : NtNtplInfo_t) :
    ∃ info1 : NtNtplInfo_t,
      NT_NTPL config_stream ntpl_cmd (some info) validate_mode = (NT_SUCCESS, some info1) ∧
      info1.ntplId = 1 ∧
      ∀ (i : Fin 3) (j : Fin 256), info1.u.errorData.errBuffer i j = 0 :=
  ⟨NtNtplInfo_t.filled 1 0, NT_NTPL_some config_stream ntpl_cmd info validate_mode, rfl,
    fun _ _ => rfl⟩

/-! ## Statistics read -/

/-- C4. For every initial NtStatistics_t record (whatever its cmd and whatever the byte that
query_v2.clear shares with streamid) and every stream handle, NT_StatRead returns 0 and the
record afterwards has numHostBufferUsed = 1, hb[0].onboardBuffering.size = 1024,
hb[0].onboardBuffering.used = 0, and hb[i] equal to its value before the call for every
index i with 1 <= i <= 15. -/
theorem NT_StatRead_one_buffer_and_frame (stat_stream : VoidPtr) (stat : NtStatistics_t) :
    ∃ stat1 : NtStatistics_t,
      NT_StatRead stat_stream (some stat) = (NT_SUCCESS, some stat1) ∧
      stat1.u.usageData_v0.data.numHostBufferUsed = 1 ∧
      (stat1.u.usageData_v0.data.hb 0).onboardBuffering.size = 1024 ∧
      (stat1.u.usageData_v0.data.hb 0).onboardBuffering.used = 0 ∧
      ∀ i : Fin 16, 1 ≤ i.val →
        stat1.u.usageData_v0.data.hb i = stat.u.usageData_v0.data.hb i := by
  refine ⟨statReadResult stat, NT_StatRead_some stat_stream stat, rfl, ?_, ?_, ?_⟩
  · simp [statReadResult]
  · simp [statReadResult]
  · intro i hi
    have hne : i ≠ 0 := by
      intro h
      rw [h] at hi
      exact absurd hi (by decide)
    simp [statReadResult, Function.update, hne]

/-- C4 at a concrete record: command 2, first union byte 1, every other member 7. -/
theorem NT_StatRead_one_buffer_and_frame_witness :
    ∃ stat1 : NtStatistics_t,
      NT_StatRead 1 (some (NtStatistics_t.filled 2 1 7)) = (NT_SUCCESS, some stat1) ∧
      stat1.u.usageData_v0.data.numHostBufferUsed = 1 ∧
      (stat1.u.usageData_v0.data.hb 0).onboardBuffering.size = 1024 ∧
      (stat1.u.usageData_v0.data.hb 0).onboardBuffering.used = 0 ∧
      ∀ i : Fin 16, 1 ≤ i.val →
        stat1.u.usageData_v0.data.hb i
          = (NtStatistics_t.filled 2 1 7).u.usageData_v0.data.hb i :=
  NT_StatRead_one_buffer_and_frame 1 (NtStatistics_t.filled 2 1 7)

/-- C7 (evaluation at a failing input). NT_StatRead is called on a record of the shape of
nt.h in which every counter is 7. The call returns 0, reports one used host buffer of
onboard size 1024 and sets used, enQueuedAdapter, deQueued and enQueued of hb[0] to 0, but
the four counters hb[0].stat.rx.frames, hb[0].stat.rx.bytes, hb[0].stat.drop.frames and
hb[0].stat.drop.bytes are still 7 afterwards: the function never assigns them. -/
theorem NT_StatRead_leaves_stat_counters :
    ∃ stat1 : NtStatistics_t,
      NT_StatRead 1 (some (NtStatistics_t.filled 0 0 7)) = (0, some stat1) ∧
      stat1.u.usageData_v0.data.numHostBufferUsed = 1 ∧
      (stat1.u.usageData_v0.data.hb 0).onboardBuffering.size = 1024 ∧
      (stat1.u.usageData_v0.data.hb 0).onboardBuffering.used = 0 ∧
      (stat1.u.usageData_v0.data.hb 0).enQueuedAdapter = 0 ∧
      (stat1.u.usageData_v0.data.hb 0).deQueued = 0 ∧
      (stat1.u.usageData_v0.data.hb 0).enQueued = 0 ∧
      (stat1.u.usageData_v0.data.hb 0).stat.rx.frames = 7 ∧
      (stat1.u.usageData_v0.data.hb 0).stat.rx.bytes = 7 ∧
      (stat1.u.usageData_v0.data.hb 0).stat.drop.frames = 7 ∧
      (stat1.u.usageData_v0.data.hb 0).stat.drop.bytes = 7 := by
  refine ⟨statReadResult (NtStatistics_t.filled 0 0 7), NT_StatRead_some 1 _, ?_⟩
  simp [statReadResult, NtStatistics_t.filled, HostBuffer.filled]

/-- For every record and stream handle, NT_StatRead leaves the member stat of hb[0] equal
to its value before the call, and sets the other counters of hb[0] to 0. -/
theorem NT_StatRead_hb0 (stat_stream : VoidPtr) (stat : NtStatistics_t) :
    ∃ stat1 : NtStatistics_t,
      NT_StatRead stat_stream (some stat) = (0, some stat1) ∧
      (stat1.u.usageData_v0.data.hb 0).stat = (stat.u.usageData_v0.data.hb 0).stat ∧
      (stat1.u.usageData_v0.data.hb 0).onboardBuffering = { used := 0, size := 1024 } ∧
      (stat1.u.usageData_v0.data.hb 0).enQueuedAdapter = 0 ∧
      (stat1.u.usageData_v0.data.hb 0).deQueued = 0 ∧
      (stat1.u.usageData_v0.data.hb 0).enQueued = 0 ∧
      (stat1.u.usageData_v0.data.hb 0).numaNode = 0 := by
  refine ⟨statReadResult stat, NT_StatRead_some stat_stream stat, ?_⟩
  simp [statReadResult]

/-! ## Packet retrieval -/

/-- C2 (counterexample). Called with stream handle 1, a packet-handle slot holding the null
handle and timeout 1000, NT_NetRxGet does not return NT_STATUS_TRYAGAIN (-3) with the slot
unchanged: the status it returns is not -3. -/
theorem NT_NetRxGet_not_tryagain :
    ¬ (NT_NetRxGet 1 (some NULL) 1000 = (NT_STATUS_TRYAGAIN, some NULL)) := by
  decide

/-- C2 (amended). For every stream handle, packet-handle slot (or null slot pointer) and
timeout, NT_NetRxGet returns -2, the value nt.h names NT_STATUS_TIMEOUT and a value
different from NT_STATUS_TRYAGAIN, and leaves the packet-handle slot unchanged. -/
theorem NT_NetRxGet_returns_timeout (stream : VoidPtr) (buffer : Option VoidPtr)
    (timeout : Int) :
    NT_NetRxGet stream buffer timeout = (NT_STATUS_TIMEOUT, buffer) ∧
    NT_STATUS_TIMEOUT = -2 ∧
    NT_STATUS_TIMEOUT ≠ NT_STATUS_TRYAGAIN :=
  ⟨rfl, rfl, by decide⟩

/-! ## Open calls -/

/-- C3 (counterexample). Each of the four open calls, made on a handle slot that holds the
null handle, does not return 0 with a non-null handle in the slot afterwards: the slot
still holds the null handle. -/
theorem open_leaves_null_slot_null :
    ¬ (∃ h : VoidPtr, NT_NetRxOpen (some NULL) (some "ntxc0") 1 0 (-1) = (0, some h) ∧ h ≠ NULL) ∧
    ¬ (∃ h : VoidPtr, NT_InfoOpen (some NULL) (some "info") = (0, some h) ∧ h ≠ NULL) ∧
    ¬ (∃ h : VoidPtr, NT_StatOpen (some NULL) (some "stat") = (0, some h) ∧ h ≠ NULL) ∧
    ¬ (∃ h : VoidPtr, NT_ConfigOpen (some NULL) (some "config") = (0, some h) ∧ h ≠ NULL) := by
  refine ⟨?_, ?_, ?_, ?_⟩ <;>
  · rintro ⟨h, heq, hne⟩
    simp only [NT_NetRxOpen, NT_InfoOpen, NT_StatOpen, NT_ConfigOpen, Prod.mk.injEq,
      Option.some.injEq, true_and] at heq
    exact hne heq.symm

/-- C3 (amended). For every open call (NT_NetRxOpen, NT_InfoOpen, NT_StatOpen,
NT_ConfigOpen) and every choice of name, interface, stream id, host-buffer allowance and
initial content of the handle slot, the call returns 0 and the handle slot afterwards holds
exactly what it held before the call. -/
theorem open_returns_success_and_keeps_slot (slot : Option VoidPtr) (name : Option String)
    (interface streamId hba : Int) :
    NT_NetRxOpen slot name interface streamId hba = (NT_SUCCESS, slot) ∧
    NT_InfoOpen slot name = (NT_SUCCESS, slot) ∧
    NT_StatOpen slot name = (NT_SUCCESS, slot) ∧
    NT_ConfigOpen slot name = (NT_SUCCESS, slot) :=
  ⟨rfl, rfl, rfl, rfl⟩

/-! ## Lifecycle calls -/

theorem repeatedCalls_eq_replicate {α : Type} (call : α → Int) (a : α) (n : Nat) :
    repeatedCalls call a n = List.replicate n (call a) := by
  induction n with
  | zero => rfl
  | succ n ih => simp [repeatedCalls, ih, List.replicate_succ]

/-- C6. For all arguments, NT_Init, NT_Done, the four open calls, the four close calls and
NT_NetRxRelease return NT_SUCCESS (0); and for every handle and every n, n consecutive
calls of a close function on that handle return 0 each time. -/
theorem lifecycle_calls_return_success (x : Int) (slot : Option VoidPtr)
    (name : Option String) (interface streamId hba : Int) (h buf : VoidPtr) (n : Nat) :
    NT_Init x = NT_SUCCESS ∧
    NT_Done = NT_SUCCESS ∧
    (NT_NetRxOpen slot name interface streamId hba).1 = NT_SUCCESS ∧
    NT_NetRxClose h = NT_SUCCESS ∧
    (NT_InfoOpen slot name).1 = NT_SUCCESS ∧
    NT_InfoClose h = NT_SUCCESS ∧
    (NT_StatOpen slot name).1 = NT_SUCCESS ∧
    NT_StatClose h = NT_SUCCESS ∧
    (NT_ConfigOpen slot name).1 = NT_SUCCESS ∧
    NT_ConfigClose h = NT_SUCCESS ∧
    NT_NetRxRelease h buf = NT_SUCCESS ∧
    NT_SUCCESS = 0 ∧
    repeatedCalls NT_NetRxClose h n = List.replicate n 0 ∧
    repeatedCalls NT_InfoClose h n = List.replicate n 0 ∧
    repeatedCalls NT_StatClose h n = List.replicate n 0 ∧
    repeatedCalls NT_ConfigClose h n = List.replicate n 0 :=
  ⟨rfl, rfl, rfl, rfl, rfl, rfl, rfl, rfl, rfl, rfl, rfl, rfl,
    repeatedCalls_eq_replicate _ _ _, repeatedCalls_eq_replicate _ _ _,
    repeatedCalls_eq_replicate _ _ _, repeatedCalls_eq_replicate _ _ _⟩

/-! ## Packet accessors -/

/-- C8. For every packet-buffer handle (null included), NT_NET_GET_PKT_TIMESTAMP returns 0,
NT_NET_GET_PKT_TIMESTAMP_TYPE returns 1, which equals NT_TIMESTAMP_TYPE_NATIVE_UNIX,
NT_NET_GET_PKT_L2_PTR returns the null pointer and NT_NET_GET_PKT_WIRE_LENGTH returns 0. -/
theorem packet_accessors_constant (buffer : VoidPtr) :
    NT_NET_GET_PKT_TIMESTAMP buffer = 0 ∧
    NT_NET_GET_PKT_TIMESTAMP_TYPE buffer = 1 ∧
    NT_NET_GET_PKT_TIMESTAMP_TYPE buffer = NT_TIMESTAMP_TYPE_NATIVE_UNIX ∧
    NT_NET_GET_PKT_L2_PTR buffer = NULL ∧
    NT_NET_GET_PKT_WIRE_LENGTH buffer = 0 :=
  ⟨rfl, rfl, rfl, rfl, rfl⟩

/-! ## Drop-counter read -/

/-- C10. For every stream handle and every initial NtNetRxCmd_t record, NT_NetRxRead returns
0 and the record afterwards has u.streamDrop.pktsDropped = 0 and the cmd it had before the
call; with a null record pointer it returns 0 and there is no record written. -/
theorem NT_NetRxRead_clears_drop_counter (stream : VoidPtr) (cmd : NtNetRxCmd_t) :
    (∃ cmd1 : NtNetRxCmd_t,
      NT_NetRxRead stream (some cmd) = (NT_SUCCESS, some cmd1) ∧
      cmd1.u.streamDrop.pktsDropped = 0 ∧
      cmd1.cmd = cmd.cmd) ∧
    NT_NetRxRead stream none = (NT_SUCCESS, none) :=
  ⟨⟨_, rfl, rfl, rfl⟩, rfl⟩

/-! ## Polling -/

theorem statReadResult_idem (s : NtStatistics_t) :
    statReadResult (statReadResult s) = statReadResult s := by
  simp [statReadResult]

/-- C9. For each record-filling function (NT_InfoRead, NT_StatRead, NT_NTPL, NT_NetRxRead),
every initial record (or null record pointer) and every two sets of the other arguments,
a second call on the record left by the first call returns the same status and leaves the
same record as the first call; and the status is 0 for every record and every argument, so
it depends neither on the prior content of the record nor on an earlier call. -/
theorem polling_is_stable (bo : ByteOrder) :
    (∀ (s1 s2 : VoidPtr) (info : Option NtInfo_t),
      NT_InfoRead bo s2 (NT_InfoRead bo s1 info).2 = NT_InfoRead bo s1 info) ∧
    (∀ (s1 s2 : VoidPtr) (stat : Option NtStatistics_t),
      NT_StatRead s2 (NT_StatRead s1 stat).2 = NT_StatRead s1 stat) ∧
    (∀ (c1 c2 : VoidPtr) (t1 t2 : Option String) (m1 m2 : Int) (info : Option NtNtplInfo_t),
      NT_NTPL c2 t2 (NT_NTPL c1 t1 info m1).2 m2 = NT_NTPL c1 t1 info m1) ∧
    (∀ (s1 s2 : VoidPtr) (cmd : Option NtNetRxCmd_t),
      NT_NetRxRead s2 (NT_NetRxRead s1 cmd).2 = NT_NetRxRead s1 cmd) ∧
    (∀ (s : VoidPtr) (info : Option NtInfo_t), (NT_InfoRead bo s info).1 = 0) ∧
    (∀ (s : VoidPtr) (stat : Option NtStatistics_t), (NT_StatRead s stat).1 = 0) ∧
    (∀ (c : VoidPtr) (t : Option String) (m : Int) (info : Option NtNtplInfo_t),
      (NT_NTPL c t info m).1 = 0) ∧
    (∀ (s : VoidPtr) (cmd : Option NtNetRxCmd_t), (NT_NetRxRead s cmd).1 = 0) := by
  refine ⟨?_, ?_, ?_, ?_, ?_, ?_, ?_, ?_⟩
  · intro s1 s2 info
    cases info with
    | none => rfl
    | some i => simp only [NT_InfoRead_some]
  · intro s1 s2 stat
    cases stat with
    | none => rfl
    | some s => simp only [NT_StatRead_some, statReadResult_idem]
  · intro c1 c2 t1 t2 m1 m2 info
    cases info with
    | none => rfl
    | some i => simp only [NT_NTPL_some]
  · intro s1 s2 cmd
    cases cmd with
    | none => rfl
    | some c => rfl
  · intro s info
    cases info <;> rfl
  · intro s stat
    cases stat <;> rfl
  · intro c t m info
    cases info <;> rfl
  · intro s cmd
    cases cmd <;> rfl

end Napatech
